import Mathlib

/-!
Verification of the core logic of the `rsntp` SNTP client library.

The development shallowly embeds the library's data model and operations:
machine integers (`u8`, `u32`, `u64`, `u128`) become `Nat` (with explicit
bounds where they matter), `f64` durations are idealised as exact rationals
`ℚ`, fallible functions return `Except`, and the `assert!` in
`SntpTimestamp::to_bytes` is modelled by an `Option` result.
-/

/-- An 8-byte array, as used for a wire-format NTP timestamp. -/
structure Bytes8 where
  b0 : Nat
  b1 : Nat
  b2 : Nat
  b3 : Nat
  b4 : Nat
  b5 : Nat
  b6 : Nat
  b7 : Nat
deriving DecidableEq, Repr

/-- All eight components are actual bytes (< 256). -/
def Bytes8.valid (b : Bytes8) : Prop :=
  b.b0 < 256 ∧ b.b1 < 256 ∧ b.b2 < 256 ∧ b.b3 < 256 ∧
  b.b4 < 256 ∧ b.b5 < 256 ∧ b.b6 < 256 ∧ b.b7 < 256

instance (b : Bytes8) : Decidable b.valid := by
  unfold Bytes8.valid; infer_instance

/-- `u64::from_be_bytes`: big-endian interpretation of 8 bytes. -/
def u64_from_be_bytes (b : Bytes8) : Nat :=
  ((((((b.b0 * 256 + b.b1) * 256 + b.b2) * 256 + b.b3) * 256 + b.b4) * 256
      + b.b5) * 256 + b.b6) * 256 + b.b7

/-- `u64::to_be_bytes`: big-endian byte decomposition of a 64-bit value. -/
def u64_to_be_bytes (n : Nat) : Bytes8 :=
  ⟨n / 72057594037927936 % 256, n / 281474976710656 % 256,
   n / 1099511627776 % 256, n / 4294967296 % 256,
   n / 16777216 % 256, n / 65536 % 256, n / 256 % 256, n % 256⟩

/-- `SntpTimestamp`: NTP 64-bit fixed-point timestamp, stored widened in a
`u128` (here `Nat`) so that both 2036-rollover eras order correctly. -/
structure SntpTimestamp where
  val : Nat
deriving DecidableEq, Repr

/-- `SntpTimestamp::zero`. -/
def SntpTimestamp.zero : SntpTimestamp := ⟨0⟩

/-- `SntpTimestamp::is_zero`. -/
def SntpTimestamp.is_zero (t : SntpTimestamp) : Bool := t.val == 0

/-- `SntpTimestamp::from_bytes`: decode 8 big-endian bytes; if the top bit
of the raw 64-bit value is clear, the value belongs to the later era and
`2^64` is added to the wide representation. -/
def SntpTimestamp.from_bytes (b : Bytes8) : SntpTimestamp :=
  if u64_from_be_bytes b &&& 0x8000000000000000 = 0 then
    ⟨u64_from_be_bytes b + 0x10000000000000000⟩
  else
    ⟨u64_from_be_bytes b⟩

/-- `SntpTimestamp::to_bytes`: encode back to 8 bytes.  The Rust code
asserts `self.0 < 2^65`; the assertion failing is modelled as `none`. -/
def SntpTimestamp.to_bytes (t : SntpTimestamp) : Option Bytes8 :=
  if t.val < 0x20000000000000000 then
    some (u64_to_be_bytes
      (if t.val < 0x10000000000000000 then t.val
       else t.val &&& 0x7fffffffffffffff))
  else
    none

/-- `impl Sub for SntpTimestamp`: signed difference in seconds.  The `f64`
result is idealised as an exact rational; the branch structure (avoiding
unsigned underflow) follows the source. -/
def SntpTimestamp.sub (a b : SntpTimestamp) : ℚ :=
  if b.val ≤ a.val then
    ((a.val - b.val : Nat) : ℚ) / 4294967296
  else
    ((b.val - a.val : Nat) : ℚ) / (-4294967296)

/-- `LeapIndicator` (packet.rs). -/
inductive LeapIndicator
  | NoWarning
  | LastMinuteHas61Seconds
  | LastMinuteHas59Seconds
  | AlarmCondition
deriving DecidableEq, Repr

/-- `Mode` (packet.rs). -/
inductive Mode
  | Client
  | Server
  | Broadcast
deriving DecidableEq, Repr

/-- An IP address: either four IPv4 octets or an IPv6 address
(whose 128-bit value is kept abstract as a `Nat`). -/
inductive IpAddr
  | V4 (a0 a1 a2 a3 : Nat)
  | V6 (segments : Nat)
deriving DecidableEq, Repr

/-- A socket address: IP address plus port. -/
structure SocketAddr where
  ip : IpAddr
  port : Nat
deriving DecidableEq, Repr

/-- `SocketAddr::is_ipv4`. -/
def SocketAddr.is_ipv4 (a : SocketAddr) : Bool :=
  match a.ip with
  | .V4 _ _ _ _ => true
  | .V6 _ => false

/-- `ReferenceIdentifier` (packet.rs). -/
inductive ReferenceIdentifier
  | Empty
  | ASCII (s : String)
  | IpAddress (addr : IpAddr)
  | MD5Hash (hash : Nat)
deriving DecidableEq, Repr

/-- `KissCode` (error.rs). -/
inductive KissCode
  | Unknown
  | AssociationBelongsToAnycastServer
  | AssociationBelongsToBroadcastServer
  | AssociationBelongsToManycastServer
  | ServerAuthenticationFailed
  | AutokeySequenceFailed
  | CryptographicAuthenticationFailed
  | AccessDenied
  | LostPeer
  | AssociationNotYetSynchronized
  | NoKeyFound
  | RateExceeded
  | TinkeringWithAssociation
  | StepChange
deriving DecidableEq, Repr

/-- `KissCode::new`: classify the reply's reference identifier.  The Rust
`match` on the string is a first-match sequence of equality tests. -/
def KissCode.new (reference_identifier : ReferenceIdentifier) : KissCode :=
  match reference_identifier with
  | .ASCII s =>
    if s = "ACST" then .AssociationBelongsToAnycastServer
    else if s = "AUTH" then .ServerAuthenticationFailed
    else if s = "AUTO" then .AutokeySequenceFailed
    else if s = "BCST" then .AssociationBelongsToBroadcastServer
    else if s = "CRYP" then .CryptographicAuthenticationFailed
    else if s = "DENY" then .AccessDenied
    else if s = "DROP" then .LostPeer
    else if s = "RSTR" then .AccessDenied
    else if s = "INIT" then .AssociationNotYetSynchronized
    else if s = "MCST" then .AssociationBelongsToManycastServer
    else if s = "NKEY" then .NoKeyFound
    else if s = "RATE" then .RateExceeded
    else if s = "RMOT" then .TinkeringWithAssociation
    else if s = "STEP" then .StepChange
    else .Unknown
  | _ => .Unknown

/-- `ProtocolError` (error.rs). -/
inductive ProtocolError
  | PacketIsTooShort
  | InvalidPacketVersion
  | InvalidLeapIndicator
  | InvalidMode
  | InvalidOriginateTimestamp
  | InvalidTransmitTimestamp
  | InvalidReferenceIdentifier
  | KissODeath (code : KissCode)
deriving DecidableEq, Repr

/-- `SynchronizationError` (error.rs).  The payload of the I/O variant
(`std::io::Error`) is outside the model. -/
inductive SynchronizationError
  | IOError
  | ProtocolError (e : ProtocolError)
deriving DecidableEq, Repr

/-- `LeapIndicator::from_u8`: note 1 ↦ 59-second variant and
2 ↦ 61-second variant (the non-identity mapping). -/
def LeapIndicator.from_u8 (raw : Nat) : Except ProtocolError LeapIndicator :=
  if raw = 0 then .ok .NoWarning
  else if raw = 1 then .ok .LastMinuteHas59Seconds
  else if raw = 2 then .ok .LastMinuteHas61Seconds
  else if raw = 3 then .ok .AlarmCondition
  else .error .InvalidLeapIndicator

/-- `Mode::from_u8`. -/
def Mode.from_u8 (raw : Nat) : Except ProtocolError Mode :=
  if raw = 3 then .ok .Client
  else if raw = 4 then .ok .Server
  else if raw = 5 then .ok .Broadcast
  else .error .InvalidMode

/-- Strip trailing NUL bytes, as `trim_end_matches` does on the
all-ASCII string decoded from the 4-byte field. -/
def dropTrailingZeros (l : List Nat) : List Nat :=
  (l.reverse.dropWhile (fun x => x == 0)).reverse

/-- Interpret a list of ASCII byte values as a string. -/
def asciiString (l : List Nat) : String :=
  String.mk (l.map Char.ofNat)

/-- `ReferenceIdentifier::new_ascii`: reject any non-ASCII byte, then trim
trailing NULs. -/
def ReferenceIdentifier.new_ascii (raw : List Nat) :
    Except ProtocolError ReferenceIdentifier :=
  if ¬ raw.all (fun x => decide (x ≤ 127)) then
    .error .InvalidReferenceIdentifier
  else
    .ok (.ASCII (asciiString (dropTrailingZeros raw)))

/-- `ReferenceIdentifier::new_ipv4_address`. -/
def ReferenceIdentifier.new_ipv4_address (r0 r1 r2 r3 : Nat) :
    Except ProtocolError ReferenceIdentifier :=
  .ok (.IpAddress (.V4 r0 r1 r2 r3))

/-- `ReferenceIdentifier::new_ipv6_hash`: big-endian 32-bit value. -/
def ReferenceIdentifier.new_ipv6_hash (r0 r1 r2 r3 : Nat) :
    Except ProtocolError ReferenceIdentifier :=
  .ok (.MD5Hash (((r0 * 256 + r1) * 256 + r2) * 256 + r3))

/-- `Packet` (packet.rs). -/
structure Packet where
  li : LeapIndicator
  mode : Mode
  stratum : Nat
  reference_identifier : ReferenceIdentifier
  reference_timestamp : SntpTimestamp
  originate_timestamp : SntpTimestamp
  receive_timestamp : SntpTimestamp
  transmit_timestamp : SntpTimestamp
deriving DecidableEq, Repr

/-- The 8 bytes of `data` starting at index `i`. -/
def bytes8At (data : List Nat) (i : Nat) : Bytes8 :=
  ⟨data.getD i 0, data.getD (i + 1) 0, data.getD (i + 2) 0,
   data.getD (i + 3) 0, data.getD (i + 4) 0, data.getD (i + 5) 0,
   data.getD (i + 6) 0, data.getD (i + 7) 0⟩

/-- `Packet::from_bytes`: decode 48 wire bytes received from
`server_address` into a `Packet`. -/
def Packet.from_bytes (data : List Nat) (server_address : SocketAddr) :
    Except ProtocolError Packet :=
  if data.length < 48 then .error .PacketIsTooShort
  else if (data.getD 0 0 >>> 3) &&& 0x07 ≠ 4 then .error .InvalidPacketVersion
  else
    match LeapIndicator.from_u8 (data.getD 0 0 >>> 6) with
    | .error e => .error e
    | .ok li =>
      match Mode.from_u8 (data.getD 0 0 &&& 0x07) with
      | .error e => .error e
      | .ok mode =>
        match (if data.getD 1 0 = 0 ∨ data.getD 1 0 = 1 then
                 ReferenceIdentifier.new_ascii
                   [data.getD 12 0, data.getD 13 0, data.getD 14 0, data.getD 15 0]
               else if server_address.is_ipv4 then
                 ReferenceIdentifier.new_ipv4_address
                   (data.getD 12 0) (data.getD 13 0) (data.getD 14 0) (data.getD 15 0)
               else
                 ReferenceIdentifier.new_ipv6_hash
                   (data.getD 12 0) (data.getD 13 0) (data.getD 14 0) (data.getD 15 0)) with
        | .error e => .error e
        | .ok reference_identifier =>
          .ok { li := li, mode := mode, stratum := data.getD 1 0,
                reference_identifier := reference_identifier,
                reference_timestamp := SntpTimestamp.from_bytes (bytes8At data 16),
                originate_timestamp := SntpTimestamp.from_bytes (bytes8At data 24),
                receive_timestamp := SntpTimestamp.from_bytes (bytes8At data 32),
                transmit_timestamp := SntpTimestamp.from_bytes (bytes8At data 40) }

/-- `SynchronizationResult` (core_logic.rs), with the `f64` fields
idealised as exact rationals. -/
structure SynchronizationResult where
  clock_offset_s : ℚ
  round_trip_delay_s : ℚ
  reference_identifier : ReferenceIdentifier
  leap_indicator : LeapIndicator
  stratum : Nat
deriving DecidableEq, Repr

/-- `Reply` (core_logic.rs): the request packet, the decoded reply packet,
and the local arrival timestamp. -/
structure Reply where
  request : Packet
  reply : Packet
  reply_timestamp : SntpTimestamp
deriving DecidableEq, Repr

/-- `Reply::check`: reply validation, in source order. -/
def Reply.check (r : Reply) : Except ProtocolError Unit :=
  if r.reply.stratum = 0 then
    .error (.KissODeath (KissCode.new r.reply.reference_identifier))
  else if r.reply.originate_timestamp ≠ r.request.transmit_timestamp then
    .error .InvalidOriginateTimestamp
  else if r.reply.transmit_timestamp.is_zero then
    .error .InvalidTransmitTimestamp
  else if r.reply.mode ≠ Mode.Server ∧ r.reply.mode ≠ Mode.Broadcast then
    .error .InvalidMode
  else
    .ok ()

/-- `Reply::process`: validate, then compute offset and delay. -/
def Reply.process (r : Reply) :
    Except SynchronizationError SynchronizationResult :=
  match r.check with
  | .error e => .error (.ProtocolError e)
  | .ok _ =>
    .ok { round_trip_delay_s :=
            (r.reply_timestamp.sub r.reply.originate_timestamp) -
              (r.reply.transmit_timestamp.sub r.reply.receive_timestamp),
          clock_offset_s :=
            ((r.reply.receive_timestamp.sub r.reply.originate_timestamp) +
              (r.reply.transmit_timestamp.sub r.reply_timestamp)) / 2,
          reference_identifier := r.reply.reference_identifier,
          leap_indicator := r.reply.li,
          stratum := r.reply.stratum }

/-! ### Concrete data used by the witnesses -/

/-- A valid 48-byte server reply (stratum 2, version 4, mode client on the
wire is irrelevant to decoding), as in the library's unit tests. -/
def sampleData : List Nat :=
  [0x23, 0x02, 0x0a, 0xec, 0x00, 0x00, 0x02, 0x86, 0x00, 0x00, 0x0b, 0x33,
   0xcc, 0x7b, 0x02, 0x48, 0xc5, 0x02, 0x02, 0xac, 0x41, 0x6e, 0x15, 0x87,
   0xc5, 0x02, 0x04, 0xec, 0xee, 0xd3, 0x3c, 0x52, 0xc5, 0x02, 0x04, 0xeb,
   0xd9, 0xd8, 0xd7, 0x9d, 0xc5, 0x02, 0x04, 0xeb, 0xd9, 0xdc, 0xb5, 0x78]

/-- An IPv4 source socket address. -/
def sampleAddr : SocketAddr := ⟨.V4 127 0 0 1, 1234⟩

/-- The packet `sampleData` decodes to. -/
def samplePacket : Packet :=
  ⟨.NoWarning, .Client, 2, .IpAddress (.V4 0xcc 0x7b 0x02 0x48),
   ⟨0xc50202ac416e1587⟩, ⟨0xc50204eceed33c52⟩,
   ⟨0xc50204ebd9d8d79d⟩, ⟨0xc50204ebd9dcb578⟩⟩


/-- Reply packet with stratum 2 but ASCII reference-identifier bytes "LOCL"
replaced at offset 12, stratum byte 1 (primary server). -/
def sampleDataAscii : List Nat :=
  [0x23, 0x01, 0x0a, 0xec, 0x00, 0x00, 0x02, 0x86, 0x00, 0x00, 0x0b, 0x33,
   0x4c, 0x4f, 0x43, 0x4c, 0xc5, 0x02, 0x02, 0xac, 0x41, 0x6e, 0x15, 0x87,
   0xc5, 0x02, 0x04, 0xec, 0xee, 0xd3, 0x3c, 0x52, 0xc5, 0x02, 0x04, 0xeb,
   0xd9, 0xd8, 0xd7, 0x9d, 0xc5, 0x02, 0x04, 0xeb, 0xd9, 0xdc, 0xb5, 0x78]

/-- A request-shaped packet with transmit timestamp `⟨7⟩`. -/
def pktBase : Packet := ⟨.NoWarning, .Client, 0, .Empty, ⟨0⟩, ⟨0⟩, ⟨0⟩, ⟨7⟩⟩

/-- Stratum-0 reply whose other fields are also all invalid. -/
def pktKoD : Packet := ⟨.NoWarning, .Client, 0, .ASCII "RATE", ⟨1⟩, ⟨99⟩, ⟨6⟩, ⟨0⟩⟩

/-- Reply whose originate timestamp does not match the request. -/
def pktMismatch : Packet := ⟨.NoWarning, .Server, 1, .ASCII "LOCL", ⟨1⟩, ⟨99⟩, ⟨6⟩, ⟨8⟩⟩

/-- Reply with matching originate but zero transmit timestamp. -/
def pktZeroTx : Packet := ⟨.NoWarning, .Server, 1, .ASCII "LOCL", ⟨1⟩, ⟨7⟩, ⟨6⟩, ⟨0⟩⟩

/-- Reply valid except for its client mode. -/
def pktBadMode : Packet := ⟨.NoWarning, .Client, 1, .ASCII "LOCL", ⟨1⟩, ⟨7⟩, ⟨6⟩, ⟨8⟩⟩

/-- Request for the C2 witness: transmit timestamp T1 = 100 seconds
(in 2^32 fixed-point units). -/
def wRequest : Packet := ⟨.NoWarning, .Client, 0, .Empty, ⟨0⟩, ⟨0⟩, ⟨0⟩, ⟨429496729600⟩⟩

/-- Valid server reply for the C2 witness: originate = T1, receive
T2 = 200 s, transmit T3 = 210 s. -/
def wReplyPkt : Packet :=
  ⟨.NoWarning, .Server, 1, .ASCII "LOCL", ⟨1⟩,
   ⟨429496729600⟩, ⟨858993459200⟩, ⟨901943132160⟩⟩

/-- Request/reply pairing for the C2 witness with arrival T4 = 105 s; the
resulting round-trip delay (105-100)-(210-200) = -5 is negative. -/
def wReply : Reply := ⟨wRequest, wReplyPkt, ⟨450971566080⟩⟩


/-! ### Helper lemmas about the timestamp codec -/

lemma u64_from_be_bytes_lt (b : Bytes8) (h : b.valid) :
    u64_from_be_bytes b < 18446744073709551616 := by
  obtain ⟨h0, h1, h2, h3, h4, h5, h6, h7⟩ := h
  unfold u64_from_be_bytes
  omega

lemma u64_bytes_round_trip (b : Bytes8) (h : b.valid) :
    u64_to_be_bytes (u64_from_be_bytes b) = b := by
  obtain ⟨b0, b1, b2, b3, b4, b5, b6, b7⟩ := b
  unfold Bytes8.valid at h
  dsimp only at h
  obtain ⟨h0, h1, h2, h3, h4, h5, h6, h7⟩ := h
  unfold u64_to_be_bytes u64_from_be_bytes
  dsimp only
  simp only [Bytes8.mk.injEq]
  refine ⟨?_, ?_, ?_, ?_, ?_, ?_, ?_, ?_⟩ <;> omega

lemma and_msb_eq_zero_iff (r : Nat) (h : r < 18446744073709551616) :
    r &&& 9223372036854775808 = 0 ↔ r < 9223372036854775808 := by
  have e : (9223372036854775808 : Nat) = 2 ^ 63 := by norm_num
  rw [e, Nat.and_two_pow, Nat.testBit_to_div_mod, ← e]
  by_cases hr : r < 9223372036854775808
  · have h0 : r / 9223372036854775808 = 0 := by omega
    simp [h0, hr]
  · have h1 : r / 9223372036854775808 = 1 := by omega
    simp [h1, hr]

lemma testBit63_iff (r : Nat) (h : r < 18446744073709551616) :
    r.testBit 63 = true ↔ 9223372036854775808 ≤ r := by
  rw [Nat.testBit_to_div_mod]
  rw [show (2 : Nat) ^ 63 = 9223372036854775808 by norm_num]
  by_cases hr : 9223372036854775808 ≤ r
  · have h1 : r / 9223372036854775808 = 1 := by omega
    simp [h1, hr]
  · have h0 : r / 9223372036854775808 = 0 := by omega
    simp [h0, hr]

lemma and_mask63 (r : Nat) :
    r &&& 9223372036854775807 = r % 9223372036854775808 := by
  have e : (9223372036854775807 : Nat) = 2 ^ 63 - 1 := by norm_num
  have e2 : (9223372036854775808 : Nat) = 2 ^ 63 := by norm_num
  rw [e, e2, Nat.and_pow_two_sub_one_eq_mod]

/-- C3: for every 8-byte array `b`, `SntpTimestamp::from_bytes(b).to_bytes() == b`,
whether the top bit of the big-endian 64-bit value is set or clear; the internal
assertion in `to_bytes` (modelled as the `none` branch) never fires on such values. -/
theorem timestamp_bytes_round_trip (b : Bytes8) (h : b.valid) :
    (SntpTimestamp.from_bytes b).to_bytes = some b := by
  have hlt := u64_from_be_bytes_lt b h
  unfold SntpTimestamp.from_bytes SntpTimestamp.to_bytes
  by_cases htop : u64_from_be_bytes b &&& 0x8000000000000000 = 0
  · have hr : u64_from_be_bytes b < 9223372036854775808 :=
      (and_msb_eq_zero_iff _ hlt).mp htop
    rw [if_pos htop]
    simp only
    rw [if_pos (by omega), if_neg (by omega), and_mask63]
    have hmod : (u64_from_be_bytes b + 0x10000000000000000) % 9223372036854775808
        = u64_from_be_bytes b := by omega
    rw [hmod, u64_bytes_round_trip b h]
  · rw [if_neg htop]
    simp only
    rw [if_pos (by omega), if_pos (by omega), u64_bytes_round_trip b h]

/-- C3 witness: the round-trip theorem applied to a concrete top-bit-set and a
concrete top-bit-clear byte array. -/
theorem timestamp_bytes_round_trip_witness :
    (SntpTimestamp.from_bytes ⟨0xc5, 0x02, 0x03, 0x4c, 0x36, 0xbb, 0xa9, 0x8e⟩).to_bytes
        = some ⟨0xc5, 0x02, 0x03, 0x4c, 0x36, 0xbb, 0xa9, 0x8e⟩ ∧
    (SntpTimestamp.from_bytes ⟨0x08, 0x1d, 0xd1, 0x80, 0x80, 0x00, 0x00, 0x00⟩).to_bytes
        = some ⟨0x08, 0x1d, 0xd1, 0x80, 0x80, 0x00, 0x00, 0x00⟩ :=
  ⟨timestamp_bytes_round_trip _ (by decide), timestamp_bytes_round_trip _ (by decide)⟩

/-- C4: era disambiguation by the top bit of the raw 64-bit value: top bit clear
means the wide value is the raw value plus `2^64` and lies in the later era range
`[2^64, 2^64 + 2^63)`; top bit set means the wide value is the raw value itself
and lies in the earlier era range `[2^63, 2^64)`. -/
theorem timestamp_era_disambiguation (b : Bytes8) (h : b.valid) :
    ((u64_from_be_bytes b).testBit 63 = false →
       SntpTimestamp.from_bytes b = ⟨u64_from_be_bytes b + 2 ^ 64⟩ ∧
       2 ^ 64 ≤ (SntpTimestamp.from_bytes b).val ∧
       (SntpTimestamp.from_bytes b).val < 2 ^ 64 + 2 ^ 63) ∧
    ((u64_from_be_bytes b).testBit 63 = true →
       SntpTimestamp.from_bytes b = ⟨u64_from_be_bytes b⟩ ∧
       2 ^ 63 ≤ (SntpTimestamp.from_bytes b).val ∧
       (SntpTimestamp.from_bytes b).val < 2 ^ 64) := by
  have hlt := u64_from_be_bytes_lt b h
  constructor
  · intro hbit
    have hr : u64_from_be_bytes b < 9223372036854775808 := by
      by_contra hc
      rw [(testBit63_iff _ hlt).mpr (by omega)] at hbit
      exact Bool.noConfusion hbit
    have heq : SntpTimestamp.from_bytes b = ⟨u64_from_be_bytes b + 2 ^ 64⟩ := by
      unfold SntpTimestamp.from_bytes
      rw [if_pos ((and_msb_eq_zero_iff _ hlt).mpr hr)]
      simp only [SntpTimestamp.mk.injEq]
      norm_num
    refine ⟨heq, ?_, ?_⟩ <;> (rw [heq]; simp; try omega)
  · intro hbit
    have hr : 9223372036854775808 ≤ u64_from_be_bytes b := (testBit63_iff _ hlt).mp hbit
    have heq : SntpTimestamp.from_bytes b = ⟨u64_from_be_bytes b⟩ := by
      unfold SntpTimestamp.from_bytes
      rw [if_neg (by rw [and_msb_eq_zero_iff _ hlt]; omega)]
    refine ⟨heq, ?_, ?_⟩ <;> (rw [heq]; simp; try omega)

/-- C4 witness: the era theorem applied to the all-zero array (top bit clear,
later era) and to a 0xc5-leading array (top bit set, earlier era). -/
theorem timestamp_era_disambiguation_witness :
    (SntpTimestamp.from_bytes ⟨0, 0, 0, 0, 0, 0, 0, 0⟩ = ⟨2 ^ 64⟩ ∧
       2 ^ 64 ≤ (SntpTimestamp.from_bytes ⟨0, 0, 0, 0, 0, 0, 0, 0⟩).val ∧
       (SntpTimestamp.from_bytes ⟨0, 0, 0, 0, 0, 0, 0, 0⟩).val < 2 ^ 64 + 2 ^ 63) ∧
    (SntpTimestamp.from_bytes ⟨0xc5, 0x02, 0x03, 0x4c, 0x36, 0xbb, 0xa9, 0x8e⟩
        = ⟨u64_from_be_bytes ⟨0xc5, 0x02, 0x03, 0x4c, 0x36, 0xbb, 0xa9, 0x8e⟩⟩ ∧
       2 ^ 63 ≤ (SntpTimestamp.from_bytes ⟨0xc5, 0x02, 0x03, 0x4c, 0x36, 0xbb, 0xa9, 0x8e⟩).val ∧
       (SntpTimestamp.from_bytes ⟨0xc5, 0x02, 0x03, 0x4c, 0x36, 0xbb, 0xa9, 0x8e⟩).val < 2 ^ 64) := by
  constructor
  · have h := (timestamp_era_disambiguation ⟨0, 0, 0, 0, 0, 0, 0, 0⟩ (by decide)).1 (by decide)
    exact h
  · exact (timestamp_era_disambiguation _ (by decide)).2 (by decide)

/-- C10: timestamp subtraction is antisymmetric and equals the signed difference
of the wide fixed-point values divided by `2^32` (with the `f64` result
idealised as an exact rational). -/
theorem timestamp_sub_antisymm :
    ∀ a b : SntpTimestamp,
      a.sub b = -(b.sub a) ∧
      a.sub b = (((a.val : ℚ) - (b.val : ℚ))) / 4294967296 := by
  have key : ∀ a b : SntpTimestamp,
      a.sub b = (((a.val : ℚ) - (b.val : ℚ))) / 4294967296 := by
    intro a b
    unfold SntpTimestamp.sub
    split
    · next hle => rw [Nat.cast_sub hle]
    · next hgt =>
      rw [Nat.cast_sub (le_of_not_le hgt), div_neg, ← neg_div, neg_sub]
  intro a b
  refine ⟨?_, key a b⟩
  rw [key a b, key b a]
  ring

/-! ### Helper lemmas about packet decoding and reply validation -/

lemma Packet.from_bytes_ok_elim {data : List Nat} {addr : SocketAddr} {p : Packet}
    (h : Packet.from_bytes data addr = .ok p) :
    48 ≤ data.length ∧
    (data.getD 0 0 >>> 3) &&& 0x07 = 4 ∧
    LeapIndicator.from_u8 (data.getD 0 0 >>> 6) = .ok p.li ∧
    Mode.from_u8 (data.getD 0 0 &&& 0x07) = .ok p.mode ∧
    p.stratum = data.getD 1 0 ∧
    (if data.getD 1 0 = 0 ∨ data.getD 1 0 = 1 then
       ReferenceIdentifier.new_ascii
         [data.getD 12 0, data.getD 13 0, data.getD 14 0, data.getD 15 0]
     else if addr.is_ipv4 then
       ReferenceIdentifier.new_ipv4_address
         (data.getD 12 0) (data.getD 13 0) (data.getD 14 0) (data.getD 15 0)
     else
       ReferenceIdentifier.new_ipv6_hash
         (data.getD 12 0) (data.getD 13 0) (data.getD 14 0) (data.getD 15 0))
      = .ok p.reference_identifier ∧
    p.reference_timestamp = SntpTimestamp.from_bytes (bytes8At data 16) ∧
    p.originate_timestamp = SntpTimestamp.from_bytes (bytes8At data 24) ∧
    p.receive_timestamp = SntpTimestamp.from_bytes (bytes8At data 32) ∧
    p.transmit_timestamp = SntpTimestamp.from_bytes (bytes8At data 40) := by
  unfold Packet.from_bytes at h
  split at h
  · exact absurd h (by simp)
  next hlen =>
    split at h
    · exact absurd h (by simp)
    next hv =>
      split at h
      · exact absurd h (by simp)
      next li hli =>
        split at h
        · exact absurd h (by simp)
        next mode hmode =>
          split at h
          · exact absurd h (by simp)
          next rid hrid =>
            cases h
            exact ⟨by omega, not_not.mp hv, hli, hmode, rfl, hrid, rfl, rfl, rfl, rfl⟩

lemma Reply.check_ok_iff (r : Reply) :
    r.check = .ok () ↔
      (r.reply.stratum ≠ 0 ∧
       r.reply.originate_timestamp = r.request.transmit_timestamp ∧
       r.reply.transmit_timestamp.is_zero = false ∧
       (r.reply.mode = Mode.Server ∨ r.reply.mode = Mode.Broadcast)) := by
  unfold Reply.check
  split_ifs with h1 h2 h3 h4 <;> (simp_all; try tauto)

/-- C5: no timestamp decoded from bytes is the zero sentinel: `is_zero` is
false on every `from_bytes` result (the all-zero input decodes to `2^64`),
so for a reply packet decoded from wire bytes the `InvalidTransmitTimestamp`
rejection in `Reply::check` is unreachable. -/
theorem decoded_timestamp_never_zero :
    (∀ b : Bytes8, (SntpTimestamp.from_bytes b).is_zero = false) ∧
    (SntpTimestamp.from_bytes ⟨0, 0, 0, 0, 0, 0, 0, 0⟩).val = 2 ^ 64 ∧
    (∀ (data : List Nat) (addr : SocketAddr) (p : Packet),
       Packet.from_bytes data addr = .ok p →
       ∀ (req : Packet) (rts : SntpTimestamp),
         Reply.check ⟨req, p, rts⟩ ≠ .error .InvalidTransmitTimestamp) := by
  have hnz : ∀ b : Bytes8, (SntpTimestamp.from_bytes b).is_zero = false := by
    intro b
    unfold SntpTimestamp.from_bytes SntpTimestamp.is_zero
    split
    · next htop =>
      simp only [beq_eq_false_iff_ne, ne_eq]
      omega
    · next htop =>
      simp only [beq_eq_false_iff_ne, ne_eq]
      intro h0
      exact htop (by rw [h0]; exact Nat.zero_and _)
  refine ⟨hnz, by decide, ?_⟩
  intro data addr p h req rts
  have htx := (Packet.from_bytes_ok_elim h).2.2.2.2.2.2.2.2.2
  intro hbad
  unfold Reply.check at hbad
  split_ifs at hbad with h1 h2 h3 h4 <;> simp_all

/-- C1: the reply validation checks run in the fixed order
Kiss-o'-Death (stratum 0, regardless of all other fields), then originate
timestamp, then zero transmit timestamp, then mode; validation succeeds iff
none of the rejection conditions holds. -/
theorem reply_check_order (r : Reply) :
    (r.reply.stratum = 0 →
       r.check = .error (.KissODeath (KissCode.new r.reply.reference_identifier))) ∧
    (r.reply.stratum ≠ 0 →
       r.reply.originate_timestamp ≠ r.request.transmit_timestamp →
       r.check = .error .InvalidOriginateTimestamp) ∧
    (r.reply.stratum ≠ 0 →
       r.reply.originate_timestamp = r.request.transmit_timestamp →
       r.reply.transmit_timestamp.is_zero = true →
       r.check = .error .InvalidTransmitTimestamp) ∧
    (r.reply.stratum ≠ 0 →
       r.reply.originate_timestamp = r.request.transmit_timestamp →
       r.reply.transmit_timestamp.is_zero = false →
       r.reply.mode ≠ Mode.Server → r.reply.mode ≠ Mode.Broadcast →
       r.check = .error .InvalidMode) ∧
    (r.check = .ok () ↔
       (r.reply.stratum ≠ 0 ∧
        r.reply.originate_timestamp = r.request.transmit_timestamp ∧
        r.reply.transmit_timestamp.is_zero = false ∧
        (r.reply.mode = Mode.Server ∨ r.reply.mode = Mode.Broadcast))) := by
  refine ⟨?_, ?_, ?_, ?_, Reply.check_ok_iff r⟩ <;>
    · intros
      unfold Reply.check
      split_ifs <;> simp_all

/-- C2: whenever validation passes, `process` returns (with no error, even
for a negative round-trip delay) the result with
`round_trip_delay = (T4 - T1) - (T3 - T2)` and
`clock_offset = ((T2 - T1) + (T3 - T4)) / 2`, where `T1` is the request
transmit timestamp, `T2`/`T3` the reply receive/transmit timestamps and
`T4` the local arrival timestamp. -/
theorem reply_process_formulas (r : Reply) (h : r.check = .ok ()) :
    r.process = .ok
      { round_trip_delay_s :=
          (r.reply_timestamp.sub r.request.transmit_timestamp) -
            (r.reply.transmit_timestamp.sub r.reply.receive_timestamp),
        clock_offset_s :=
          ((r.reply.receive_timestamp.sub r.request.transmit_timestamp) +
            (r.reply.transmit_timestamp.sub r.reply_timestamp)) / 2,
        reference_identifier := r.reply.reference_identifier,
        leap_indicator := r.reply.li,
        stratum := r.reply.stratum } := by
  have horig : r.reply.originate_timestamp = r.request.transmit_timestamp :=
    ((Reply.check_ok_iff r).mp h).2.1
  unfold Reply.process
  rw [h]
  dsimp only
  rw [horig]

/-! ### Concrete wire data used by the witnesses -/

/-- C6: the leap-indicator mapping is the exact non-identity mapping
0 ↦ NoWarning, 1 ↦ LastMinuteHas59Seconds, 2 ↦ LastMinuteHas61Seconds,
3 ↦ AlarmCondition, any other raw value fails with `InvalidLeapIndicator`;
and packet decode obtains the field from bits 6-7 of byte 0. -/
theorem leap_indicator_mapping :
    LeapIndicator.from_u8 0 = .ok .NoWarning ∧
    LeapIndicator.from_u8 1 = .ok .LastMinuteHas59Seconds ∧
    LeapIndicator.from_u8 2 = .ok .LastMinuteHas61Seconds ∧
    LeapIndicator.from_u8 3 = .ok .AlarmCondition ∧
    (∀ raw, 4 ≤ raw → LeapIndicator.from_u8 raw = .error .InvalidLeapIndicator) ∧
    (∀ (data : List Nat) (addr : SocketAddr) (p : Packet),
       Packet.from_bytes data addr = .ok p →
       LeapIndicator.from_u8 (data.getD 0 0 >>> 6) = .ok p.li) := by
  refine ⟨rfl, rfl, rfl, rfl, ?_, ?_⟩
  · intro raw hraw
    unfold LeapIndicator.from_u8
    rw [if_neg (by omega), if_neg (by omega), if_neg (by omega), if_neg (by omega)]
  · intro data addr p h
    exact (Packet.from_bytes_ok_elim h).2.2.1

/-- C8: a buffer of fewer than 48 bytes always fails `PacketIsTooShort`
(regardless of content, so before any version inspection), and a buffer of at
least 48 bytes with version field ≠ 4 always fails `InvalidPacketVersion`. -/
theorem packet_length_and_version_checks (data : List Nat) (addr : SocketAddr) :
    (data.length < 48 → Packet.from_bytes data addr = .error .PacketIsTooShort) ∧
    (48 ≤ data.length → (data.getD 0 0 >>> 3) &&& 0x07 ≠ 4 →
       Packet.from_bytes data addr = .error .InvalidPacketVersion) := by
  constructor
  · intro h
    unfold Packet.from_bytes
    rw [if_pos h]
  · intro h1 h2
    unfold Packet.from_bytes
    rw [if_neg (by omega), if_pos h2]

/-- C7: the reference-identifier variant on successful decode is determined
by the stratum and the address family: stratum 0 or 1 gives the ASCII variant
(whose 4 bytes must then all be ASCII, trailing NULs trimmed), stratum ≥ 2
gives the IPv4-address variant for an IPv4 source and the 32-bit big-endian
hash variant for an IPv6 source; in the ASCII case decode fails with
`InvalidReferenceIdentifier` iff some of the 4 bytes is non-ASCII. -/
theorem reference_identifier_dispatch :
    (∀ (data : List Nat) (addr : SocketAddr) (p : Packet),
       Packet.from_bytes data addr = .ok p →
       (p.stratum = 0 ∨ p.stratum = 1) →
       (data.getD 12 0 ≤ 127 ∧ data.getD 13 0 ≤ 127 ∧
        data.getD 14 0 ≤ 127 ∧ data.getD 15 0 ≤ 127) ∧
       p.reference_identifier =
         .ASCII (asciiString (dropTrailingZeros
           [data.getD 12 0, data.getD 13 0, data.getD 14 0, data.getD 15 0]))) ∧
    (∀ (data : List Nat) (addr : SocketAddr) (p : Packet),
       Packet.from_bytes data addr = .ok p →
       2 ≤ p.stratum → addr.is_ipv4 = true →
       p.reference_identifier =
         .IpAddress (.V4 (data.getD 12 0) (data.getD 13 0)
           (data.getD 14 0) (data.getD 15 0))) ∧
    (∀ (data : List Nat) (addr : SocketAddr) (p : Packet),
       Packet.from_bytes data addr = .ok p →
       2 ≤ p.stratum → addr.is_ipv4 = false →
       p.reference_identifier =
         .MD5Hash (((data.getD 12 0 * 256 + data.getD 13 0) * 256
           + data.getD 14 0) * 256 + data.getD 15 0)) ∧
    (∀ (data : List Nat) (addr : SocketAddr) (li : LeapIndicator) (mode : Mode),
       48 ≤ data.length →
       (data.getD 0 0 >>> 3) &&& 0x07 = 4 →
       LeapIndicator.from_u8 (data.getD 0 0 >>> 6) = .ok li →
       Mode.from_u8 (data.getD 0 0 &&& 0x07) = .ok mode →
       (data.getD 1 0 = 0 ∨ data.getD 1 0 = 1) →
       (Packet.from_bytes data addr = .error .InvalidReferenceIdentifier ↔
         ¬ (data.getD 12 0 ≤ 127 ∧ data.getD 13 0 ≤ 127 ∧
            data.getD 14 0 ≤ 127 ∧ data.getD 15 0 ≤ 127))) := by
  refine ⟨?_, ?_, ?_, ?_⟩
  · intro data addr p h hs
    obtain ⟨-, -, -, -, h5, h6, -, -, -, -⟩ := Packet.from_bytes_ok_elim h
    rw [h5] at hs
    rw [if_pos hs] at h6
    unfold ReferenceIdentifier.new_ascii at h6
    split at h6
    · exact absurd h6 (by simp)
    next hall =>
      rw [Except.ok.injEq] at h6
      have hall2 := not_not.mp hall
      simp only [List.all_cons, List.all_nil, Bool.and_eq_true,
        decide_eq_true_eq, and_true] at hall2
      exact ⟨⟨hall2.1, hall2.2.1, hall2.2.2.1, hall2.2.2.2⟩, h6.symm⟩
  · intro data addr p h hs hip
    obtain ⟨-, -, -, -, h5, h6, -, -, -, -⟩ := Packet.from_bytes_ok_elim h
    rw [h5] at hs
    rw [if_neg (by omega), if_pos hip] at h6
    unfold ReferenceIdentifier.new_ipv4_address at h6
    rw [Except.ok.injEq] at h6
    exact h6.symm
  · intro data addr p h hs hip
    obtain ⟨-, -, -, -, h5, h6, -, -, -, -⟩ := Packet.from_bytes_ok_elim h
    rw [h5] at hs
    rw [if_neg (by omega), if_neg (by simp [hip])] at h6
    unfold ReferenceIdentifier.new_ipv6_hash at h6
    rw [Except.ok.injEq] at h6
    exact h6.symm
  · intro data addr li mode hlen hv hli hmode hstrat
    unfold Packet.from_bytes
    rw [if_neg (by omega), if_neg (not_not_intro hv), hli, hmode]
    dsimp only
    rw [if_pos hstrat]
    unfold ReferenceIdentifier.new_ascii
    by_cases hall : ([data.getD 12 0, data.getD 13 0, data.getD 14 0,
        data.getD 15 0].all (fun x => decide (x ≤ 127))) = true
    · rw [if_neg (not_not_intro hall)]
      dsimp only
      simp only [List.all_cons, List.all_nil, Bool.and_eq_true,
        decide_eq_true_eq, and_true] at hall
      constructor
      · intro hbad
        exact absurd hbad (by simp)
      · intro hc
        exact absurd ⟨hall.1, hall.2.1, hall.2.2.1, hall.2.2.2⟩ hc
    · rw [if_pos hall]
      dsimp only
      constructor
      · intro _ hc
        refine absurd ?_ hall
        simp only [List.all_cons, List.all_nil, Bool.and_eq_true,
          decide_eq_true_eq, and_true]
        exact ⟨hc.1, hc.2.1, hc.2.2.1, hc.2.2.2⟩
      · intro _
        rfl

/-- C9: kiss-code classification is a pure lookup on the ASCII variant:
the fourteen four-character codes map to their enumerators (DENY and RSTR
both to AccessDenied), and every other ASCII string and every non-ASCII
variant maps to Unknown. -/
theorem kiss_code_classification :
    KissCode.new (.ASCII "ACST") = .AssociationBelongsToAnycastServer ∧
    KissCode.new (.ASCII "AUTH") = .ServerAuthenticationFailed ∧
    KissCode.new (.ASCII "AUTO") = .AutokeySequenceFailed ∧
    KissCode.new (.ASCII "BCST") = .AssociationBelongsToBroadcastServer ∧
    KissCode.new (.ASCII "CRYP") = .CryptographicAuthenticationFailed ∧
    KissCode.new (.ASCII "DENY") = .AccessDenied ∧
    KissCode.new (.ASCII "DROP") = .LostPeer ∧
    KissCode.new (.ASCII "RSTR") = .AccessDenied ∧
    KissCode.new (.ASCII "INIT") = .AssociationNotYetSynchronized ∧
    KissCode.new (.ASCII "MCST") = .AssociationBelongsToManycastServer ∧
    KissCode.new (.ASCII "NKEY") = .NoKeyFound ∧
    KissCode.new (.ASCII "RATE") = .RateExceeded ∧
    KissCode.new (.ASCII "RMOT") = .TinkeringWithAssociation ∧
    KissCode.new (.ASCII "STEP") = .StepChange ∧
    (∀ s : String,
       s ∉ ["ACST", "AUTH", "AUTO", "BCST", "CRYP", "DENY", "DROP", "RSTR",
            "INIT", "MCST", "NKEY", "RATE", "RMOT", "STEP"] →
       KissCode.new (.ASCII s) = .Unknown) ∧
    KissCode.new .Empty = .Unknown ∧
    (∀ a : IpAddr, KissCode.new (.IpAddress a) = .Unknown) ∧
    (∀ n : Nat, KissCode.new (.MD5Hash n) = .Unknown) := by
  refine ⟨by decide, by decide, by decide, by decide, by decide, by decide,
    by decide, by decide, by decide, by decide, by decide, by decide,
    by decide, by decide, ?_, rfl, fun a => rfl, fun n => rfl⟩
  intro s hs
  simp only [List.mem_cons, List.not_mem_nil, or_false, not_or] at hs
  obtain ⟨h1, h2, h3, h4, h5, h6, h7, h8, h9, h10, h11, h12, h13, h14⟩ := hs
  unfold KissCode.new
  dsimp only
  rw [if_neg h1, if_neg h2, if_neg h3, if_neg h4, if_neg h5, if_neg h6,
    if_neg h7, if_neg h8, if_neg h9, if_neg h10, if_neg h11, if_neg h12,
    if_neg h13, if_neg h14]

/-- C1 witness: each rejection branch exercised on a concrete reply; the
stratum-0 reply also has a mismatched originate timestamp, a zero transmit
timestamp and an invalid mode, yet is reported as Kiss-o'-Death. -/
theorem reply_check_order_witness :
    Reply.check ⟨pktBase, pktKoD, ⟨50⟩⟩ =
      .error (.KissODeath (KissCode.new pktKoD.reference_identifier)) ∧
    Reply.check ⟨pktBase, pktMismatch, ⟨50⟩⟩ = .error .InvalidOriginateTimestamp ∧
    Reply.check ⟨pktBase, pktZeroTx, ⟨50⟩⟩ = .error .InvalidTransmitTimestamp ∧
    Reply.check ⟨pktBase, pktBadMode, ⟨50⟩⟩ = .error .InvalidMode :=
  ⟨(reply_check_order _).1 rfl,
   (reply_check_order _).2.1 (by decide) (by decide),
   (reply_check_order _).2.2.1 (by decide) (by decide) (by decide),
   (reply_check_order _).2.2.2.1 (by decide) (by decide) (by decide)
     (by decide) (by decide)⟩

/-- C2 witness: on a concrete validated pair the formulas produce
offset 205/2 and the negative delay -5, returned without error. -/
theorem reply_process_formulas_witness :
    wReply.check = .ok () ∧
    wReply.process = .ok
      { round_trip_delay_s := -5,
        clock_offset_s := 205 / 2,
        reference_identifier := .ASCII "LOCL",
        leap_indicator := .NoWarning,
        stratum := 1 } := by
  have hc : wReply.check = .ok () := by rfl
  refine ⟨hc, ?_⟩
  rw [reply_process_formulas wReply hc]
  simp only [Except.ok.injEq, SynchronizationResult.mk.injEq]
  refine ⟨?_, ?_, rfl, rfl, rfl⟩ <;>
    norm_num [SntpTimestamp.sub, wReply, wReplyPkt, wRequest]

/-- C5 witness: the non-zero-transmit-timestamp theorem applied to the
concretely decoded `samplePacket`. -/
theorem decoded_timestamp_never_zero_witness :
    Reply.check ⟨samplePacket, samplePacket, ⟨77⟩⟩ ≠ .error .InvalidTransmitTimestamp :=
  decoded_timestamp_never_zero.2.2 sampleData sampleAddr samplePacket rfl
    samplePacket ⟨77⟩

/-- C6 witness: raw value 4 is rejected, and the concrete decode of
`sampleData` obtained its leap indicator from bits 6-7 of byte 0. -/
theorem leap_indicator_mapping_witness :
    LeapIndicator.from_u8 4 = .error .InvalidLeapIndicator ∧
    LeapIndicator.from_u8 (sampleData.getD 0 0 >>> 6) = .ok samplePacket.li :=
  ⟨leap_indicator_mapping.2.2.2.2.1 4 (by norm_num),
   leap_indicator_mapping.2.2.2.2.2 sampleData sampleAddr samplePacket rfl⟩

/-- C7 witness: the stratum-2 IPv4 dispatch on the concrete `sampleData`,
and the ASCII failure characterisation on the concrete `sampleDataAscii`. -/
theorem reference_identifier_dispatch_witness :
    samplePacket.reference_identifier =
      .IpAddress (.V4 (sampleData.getD 12 0) (sampleData.getD 13 0)
        (sampleData.getD 14 0) (sampleData.getD 15 0)) ∧
    (Packet.from_bytes sampleDataAscii sampleAddr =
        .error .InvalidReferenceIdentifier ↔
      ¬ (sampleDataAscii.getD 12 0 ≤ 127 ∧ sampleDataAscii.getD 13 0 ≤ 127 ∧
         sampleDataAscii.getD 14 0 ≤ 127 ∧ sampleDataAscii.getD 15 0 ≤ 127)) :=
  ⟨reference_identifier_dispatch.2.1 sampleData sampleAddr samplePacket rfl
     (by decide) (by decide),
   reference_identifier_dispatch.2.2.2 sampleDataAscii sampleAddr
     .NoWarning .Client (by decide) (by decide) rfl rfl (by decide)⟩

/-- C8 witness: the empty buffer is too short, and a 48-byte all-zero buffer
(version 0) has an invalid version. -/
theorem packet_length_and_version_checks_witness :
    Packet.from_bytes [] sampleAddr = .error .PacketIsTooShort ∧
    Packet.from_bytes (List.replicate 48 0) sampleAddr = .error .InvalidPacketVersion :=
  ⟨(packet_length_and_version_checks [] sampleAddr).1 (by decide),
   (packet_length_and_version_checks (List.replicate 48 0) sampleAddr).2
     (by decide) (by decide)⟩

/-- C9 witness: a four-character ASCII string outside the fixed table maps
to Unknown. -/
theorem kiss_code_classification_witness :
    KissCode.new (.ASCII "GPS") = .Unknown :=
  kiss_code_classification.2.2.2.2.2.2.2.2.2.2.2.2.2.2.1 "GPS" (by decide)
